import Mathlib

/-!
Verification of the octowalrus storage service against its specification.

The Python sources are shallowly embedded: Python strings become lists of
characters, exceptions become `Except`, and calls into external SDKs
(boto3, GitPython) are modelled by explicit outcome parameters.  The URL
rewriting helper depends on `urllib.parse`, which is embedded from the
CPython 3.11 standard-library source (`urlsplit`, `urlparse`,
`urlunsplit`, `urlunparse` and the `ipaddress` validation they invoke).
-/

namespace Octowalrus

/-- Python strings are modelled as lists of characters. -/
abbrev PyStr := List Char

/-- Decidable equality for `Except`, used to evaluate the concrete witnesses
and counterexamples below. -/
instance instDecidableEqExceptOcto {ε α : Type} [DecidableEq ε] [DecidableEq α] :
    DecidableEq (Except ε α)
  | .ok a, .ok b =>
    if h : a = b then isTrue (by rw [h])
    else isFalse (by intro hh; cases hh; exact h rfl)
  | .ok _, .error _ => isFalse (by intro h; cases h)
  | .error _, .ok _ => isFalse (by intro h; cases h)
  | .error a, .error b =>
    if h : a = b then isTrue (by rw [h])
    else isFalse (by intro hh; cases hh; exact h rfl)

/-- The character list of a Lean string literal (shorthand for embedding
Python string literals). -/
def pys (s : String) : PyStr := s.toList

/-- Python truthiness of an optional string: `None` and the empty string are falsy. -/
def pyTruthy : Option PyStr → Bool
  | none => false
  | some s => !s.isEmpty

/-- Split at the first occurrence of a delimiter: the part before it and the part
after it (the latter empty when the delimiter is absent).  Models the Python
pattern `if c in s: a, b = s.split(c, 1)` with `b = ""` otherwise. -/
def splitFirst (c : Char) (s : PyStr) : PyStr × PyStr :=
  let pre := s.takeWhile (fun d => d != c)
  (pre, (s.drop pre.length).drop 1)

/-- Python `s.partition(c)[0]`: the part before the first occurrence, or all of `s`. -/
def beforeFirst (c : Char) (s : PyStr) : PyStr := s.takeWhile (fun d => d != c)

/-- Python `s.partition(c)[2]`: the part after the first occurrence, or empty. -/
def afterFirst (c : Char) (s : PyStr) : PyStr :=
  (s.drop (s.takeWhile (fun d => d != c)).length).drop 1

/-- Python `s.split(c)`: split on every occurrence of the separator;
the empty string splits to `[""]`. -/
def pySplit (c : Char) : PyStr → List PyStr
  | [] => [[]]
  | d :: rest =>
    if d = c then [] :: pySplit c rest
    else
      match pySplit c rest with
      | h :: t => (d :: h) :: t
      | [] => [[d]]

/-! ## ipaddress validation (CPython 3.11 `ipaddress.py`)

`urlsplit` validates a bracketed netloc host via `ipaddress.ip_address`;
only validity (does the constructor raise?) is needed here, not the
numeric value. -/

/-- Hexadecimal digit test (`ipaddress._BaseV6._HEX_DIGITS`). -/
def isHexDigitChar (c : Char) : Bool :=
  c.isDigit || ('a' ≤ c && c ≤ 'f') || ('A' ≤ c && c ≤ 'F')

/-- Value of a hexadecimal digit character. -/
def hexDigitVal (c : Char) : Nat :=
  if c.isDigit then c.toNat - 48
  else if 'a' ≤ c && c ≤ 'f' then c.toNat - 87
  else c.toNat - 55

/-- Value of a hexadecimal digit string. -/
def hexVal (s : PyStr) : Nat := s.foldl (fun a c => a * 16 + hexDigitVal c) 0

/-- Value of a decimal digit string. -/
def decVal (s : PyStr) : Nat := s.foldl (fun a c => a * 10 + (c.toNat - 48)) 0

/-- `ipaddress._BaseV4._parse_octet`: a decimal octet, ASCII digits only, at most
three characters, no leading zeros, value at most 255. -/
def parseOctet (s : PyStr) : Option Nat :=
  if s.isEmpty then none
  else if ¬ s.all Char.isDigit then none
  else if s.length > 3 then none
  else if s ≠ ['0'] ∧ s.headD 'x' = '0' then none
  else if decVal s > 255 then none
  else some (decVal s)

/-- `ipaddress.IPv4Address._ip_int_from_string`: a dotted quad of exactly four
valid octets. -/
def ipv4Int (s : PyStr) : Option Nat :=
  match pySplit '.' s with
  | [a, b, c, d] =>
    match parseOctet a, parseOctet b, parseOctet c, parseOctet d with
    | some x, some y, some z, some w => some (((x * 256 + y) * 256 + z) * 256 + w)
    | _, _, _, _ => none
  | _ => none

/-- `ipaddress._BaseV6._parse_hextet`: one to four hexadecimal digits. -/
def parseHextet (s : PyStr) : Bool :=
  s.all isHexDigitChar && s.length ≤ 4 && !s.isEmpty

/-- `ipaddress._BaseV6._ip_int_from_string` as a validity check: colon-separated
hextets, optional trailing IPv4 suffix, at most one double colon covering the
endpoints, eight hextets in total. -/
def ipv6Valid (s : PyStr) : Bool :=
  if s.isEmpty then false
  else
    let parts0 := pySplit ':' s
    if parts0.length < 3 then false
    else
      let last := parts0.getLastD []
      let expanded : Option (List PyStr) :=
        if last.contains '.' then
          match ipv4Int last with
          | some v => some (parts0.dropLast ++ [Nat.toDigits 16 (v / 65536), Nat.toDigits 16 (v % 65536)])
          | none => none
        else some parts0
      match expanded with
      | none => false
      | some parts =>
        if parts.length > 9 then false
        else
          let middle := (parts.drop 1).dropLast
          let emptyCount := (middle.filter (fun p => p.isEmpty)).length
          if emptyCount > 1 then false
          else if emptyCount = 1 then
            let skip := 1 + ((middle.findIdx? (fun p => p.isEmpty)).getD 0)
            let hi0 := skip
            let lo0 := parts.length - skip - 1
            if (parts.headD []).isEmpty ∧ hi0 ≠ 1 then false
            else if (parts.getLastD []).isEmpty ∧ lo0 ≠ 1 then false
            else
              let hi := if (parts.headD []).isEmpty then hi0 - 1 else hi0
              let lo := if (parts.getLastD []).isEmpty then lo0 - 1 else lo0
              if hi + lo > 7 then false
              else
                (parts.take hi).all parseHextet && (parts.drop (parts.length - lo)).all parseHextet
          else
            if parts.length ≠ 8 then false
            else if (parts.headD []).isEmpty then false
            else if (parts.getLastD []).isEmpty then false
            else parts.all parseHextet

/-- `ipaddress.IPv6Address.__init__` on a string: an optional nonempty scope id may
follow a single percent sign (`_split_scope_id`). -/
def ipv6ValidWithScope (s : PyStr) : Bool :=
  if s.contains '%' then
    let scope := afterFirst '%' s
    if scope.isEmpty || scope.contains '%' then false
    else ipv6Valid (beforeFirst '%' s)
  else ipv6Valid s

/-- `urllib.parse._check_bracketed_host`: an IPvFuture literal
(`v`, hex digits, a dot, a nonempty remainder) or a valid IPv6 address.
A valid IPv4 address in brackets raises in Python and no IPv4 address
is a valid IPv6 address, so both fold into the IPv6 test. -/
def checkBracketedHost (h : PyStr) : Bool :=
  match h with
  | 'v' :: rest =>
    let hexs := rest.takeWhile isHexDigitChar
    (!hexs.isEmpty) &&
      (match rest.drop hexs.length with
       | '.' :: t => !t.isEmpty
       | _ => false)
  | _ => ipv6ValidWithScope h

/-! ## urllib.parse (CPython 3.11 `urllib/parse.py`)

All call sites in this repository use the default arguments
(`scheme=""`, `allow_fragments=True`), so those defaults are baked in.
A raised `ValueError` is modelled as `Except.error` with its message. -/

/-- `urllib.parse.scheme_chars`. -/
def isSchemeChar (c : Char) : Bool :=
  c.isAlpha || c.isDigit || c = '+' || c = '-' || c = '.'

/-- Characters stripped from the left of the URL (`_WHATWG_C0_CONTROL_OR_SPACE`). -/
def isC0OrSpace (c : Char) : Bool := c.toNat ≤ 32

/-- Characters removed everywhere (`_UNSAFE_URL_BYTES_TO_REMOVE`). -/
def isUnsafeUrlByte (c : Char) : Bool := c = '\t' || c = '\r' || c = '\n'

/-- Result of `urlsplit`: the five named components. -/
structure SplitResult where
  scheme : PyStr
  netloc : PyStr
  path : PyStr
  query : PyStr
  fragment : PyStr
deriving DecidableEq

/-- Result of `urlparse`: the six named components. -/
structure ParseResult where
  scheme : PyStr
  netloc : PyStr
  path : PyStr
  params : PyStr
  query : PyStr
  fragment : PyStr
deriving DecidableEq

/-- Scheme extraction step of `urlsplit`: a colon at a positive index preceded by an
ASCII letter followed only by scheme characters splits off a lowercased scheme. -/
def extractScheme (url : PyStr) : PyStr × PyStr :=
  match url.findIdx? (fun c => c == ':') with
  | some i =>
    if 0 < i ∧ isAsciiAlpha (url.headD ' ') ∧ (url.take i).all isSchemeChar then
      ((url.take i).map Char.toLower, url.drop (i + 1))
    else ([], url)
  | none => ([], url)
where
  /-- `url[0].isascii() and url[0].isalpha()`; Lean's `Char.isAlpha` is the
  ASCII-letter test. -/
  isAsciiAlpha (c : Char) : Bool := c.isAlpha

/-- `urllib.parse._splitnetloc` from position 2: the netloc runs to the first
`/`, `?` or `#`. -/
def splitNetloc (s : PyStr) : PyStr × PyStr :=
  let netloc := s.takeWhile (fun c => !(c == '/' || c == '?' || c == '#'))
  (netloc, s.drop netloc.length)

/-- Fragment and query splitting tail of `urlsplit` (fragment first, then query). -/
def splitRest (scheme netloc rest : PyStr) : SplitResult :=
  let (noFrag, fragment) := splitFirst '#' rest
  let (path, query) := splitFirst '?' noFrag
  ⟨scheme, netloc, path, query, fragment⟩

/-- `urllib.parse._checknetloc`.  An empty or all-ASCII netloc always passes.  The
non-ASCII branch compares against NFKC normalization, which lies outside this
embedding; it is modelled as passing, Python's behavior for every NFKC-stable
netloc.  No theorem below depends on a non-ASCII netloc. -/
def checknetloc (netloc : PyStr) : Bool :=
  if netloc.isEmpty || netloc.all (fun c => c.toNat < 128) then true
  else true

/-- `urllib.parse.urlsplit` (Python 3.11) with the default `scheme` and
`allow_fragments` used at every call site of this repository. -/
def urlsplit (url0 : PyStr) : Except PyStr SplitResult :=
  let url1 := (url0.dropWhile isC0OrSpace).filter (fun c => !isUnsafeUrlByte c)
  let (scheme, url2) := extractScheme url1
  if url2.take 2 = ['/', '/'] then
    let (netloc, rest) := splitNetloc (url2.drop 2)
    if (netloc.contains '[' ∧ ¬ netloc.contains ']') ∨
       (netloc.contains ']' ∧ ¬ netloc.contains '[') then
      .error (pys "Invalid IPv6 URL")
    else if netloc.contains '[' ∧
            ¬ checkBracketedHost (beforeFirst ']' (afterFirst '[' netloc)) then
      .error (pys "bracketed host is invalid")
    else if ¬ checknetloc netloc then
      .error (pys "netloc contains invalid characters under NFKC normalization")
    else .ok (splitRest scheme netloc rest)
  else .ok (splitRest scheme [] url2)

/-- `urllib.parse.uses_params`. -/
def uses_params : List PyStr :=
  [pys "", pys "ftp", pys "hdl", pys "prospero", pys "http", pys "imap",
   pys "https", pys "shttp", pys "rtsp", pys "rtsps", pys "rtspu", pys "sip",
   pys "sips", pys "mms", pys "sftp", pys "tel"]

/-- `urllib.parse.uses_netloc`. -/
def uses_netloc : List PyStr :=
  [pys "", pys "ftp", pys "http", pys "gopher", pys "nntp", pys "telnet",
   pys "imap", pys "wais", pys "file", pys "mms", pys "https", pys "shttp",
   pys "snews", pys "prospero", pys "rtsp", pys "rtsps", pys "rtspu",
   pys "rsync", pys "svn", pys "svn+ssh", pys "sftp", pys "nfs", pys "git",
   pys "git+ssh", pys "ws", pys "wss"]

/-- `urllib.parse._splitparams`.  The final branch mirrors Python's negative-index
slicing when no semicolon is present; `urlparse` only calls this when there is one. -/
def splitparams (url : PyStr) : PyStr × PyStr :=
  if url.contains '/' then
    let lastSeg := (url.reverse.takeWhile (fun c => c != '/')).reverse
    let pre := url.take (url.length - lastSeg.length)
    if lastSeg.contains ';' then
      let (a, b) := splitFirst ';' lastSeg
      (pre ++ a, b)
    else (url, [])
  else
    match url.findIdx? (fun c => c == ';') with
    | some i => (url.take i, url.drop (i + 1))
    | none => (url.take (url.length - 1), url)

/-- `urllib.parse.urlparse` (Python 3.11): `urlsplit` plus params splitting for
schemes in `uses_params`. -/
def urlparse (url : PyStr) : Except PyStr ParseResult :=
  match urlsplit url with
  | .error e => .error e
  | .ok r =>
    if uses_params.contains r.scheme ∧ r.path.contains ';' then
      let (p, params) := splitparams r.path
      .ok ⟨r.scheme, r.netloc, p, params, r.query, r.fragment⟩
    else .ok ⟨r.scheme, r.netloc, r.path, [], r.query, r.fragment⟩

/-- `urllib.parse.urlunsplit` (Python 3.11). -/
def urlunsplit (c : SplitResult) : PyStr :=
  let u0 := c.path
  let u1 :=
    if c.netloc ≠ [] ∨ (c.scheme ≠ [] ∧ uses_netloc.contains c.scheme ∧ u0.take 2 ≠ ['/', '/']) then
      ['/', '/'] ++ c.netloc ++ (if u0 ≠ [] ∧ u0.take 1 ≠ ['/'] then '/' :: u0 else u0)
    else u0
  let u2 := if c.scheme ≠ [] then c.scheme ++ ':' :: u1 else u1
  let u3 := if c.query ≠ [] then u2 ++ '?' :: c.query else u2
  if c.fragment ≠ [] then u3 ++ '#' :: c.fragment else u3

/-- `urllib.parse.urlunparse` (Python 3.11). -/
def urlunparse (c : ParseResult) : PyStr :=
  let u := if c.params ≠ [] then c.path ++ ';' :: c.params else c.path
  urlunsplit ⟨c.scheme, c.netloc, u, c.query, c.fragment⟩

/-! ## file_service.py: replace_url_endpoint -/

/-- `file_service.replace_url_endpoint`: returns the URL unchanged for a falsy
override, otherwise re-serializes the parsed URL with the override's scheme and
netloc (a namedtuple `_replace` followed by `urlunparse`); any `ValueError` from
parsing is caught and the original URL returned. -/
def replace_url_endpoint (url : PyStr) (external_url : Option PyStr) : PyStr :=
  if pyTruthy external_url = false then url
  else
    match urlparse url, urlparse (external_url.getD []) with
    | .ok parsed, .ok ext =>
      urlunparse ⟨ext.scheme, ext.netloc, parsed.path, parsed.params, parsed.query, parsed.fragment⟩
    | _, _ => url

/-! ## core/settings.py

The storage-related fields of the validated `Settings` object.  Note that
`s3_upload_expiration` is the only expiration setting it holds. -/

/-- The storage-related settings (`core.settings.Settings`). -/
structure Settings where
  s3_endpoint_url : PyStr
  s3_bucket : PyStr
  s3_access_key : PyStr
  s3_secret_key : PyStr
  s3_external_url : PyStr
  s3_region : PyStr
  s3_upload_expiration : Int
  s3_use_ssl : Bool
deriving DecidableEq

/-! ## services/file_service.py: FileService -/

/-- Exceptions crossing the service boundary.  `clientError` is botocore's
`ClientError`, `fileServiceError` is the domain error `FileServiceError`
raised by the wrapper, and `otherError` stands for any other `Exception`. -/
inductive Exc where
  | clientError : PyStr → Exc
  | fileServiceError : PyStr → Exc
  | otherError : PyStr → Exc
deriving DecidableEq

/-- Python `str(e)`: the message carried by the exception. -/
def Exc.msg : Exc → PyStr
  | .clientError m => m
  | .fileServiceError m => m
  | .otherError m => m

/-- A boto3 client handle.  `clientId` models object identity (each call to
`boto3.client` yields a distinct object); the remaining fields are the
`client_params` passed in `FileService.__init__`. -/
structure Boto3Client where
  clientId : Nat
  region_name : PyStr
  endpoint_url : PyStr
  use_ssl : Bool
  aws_access_key_id : PyStr
  aws_secret_access_key : PyStr
deriving DecidableEq

/-- `boto3.client(**client_params)` as called in `FileService.__init__`, with a
fresh identity. -/
def boto3_client (s : Settings) (fresh : Nat) : Boto3Client :=
  { clientId := fresh
    region_name := s.s3_region
    endpoint_url := s.s3_endpoint_url
    use_ssl := s.s3_use_ssl
    aws_access_key_id := s.s3_access_key
    aws_secret_access_key := s.s3_secret_key }

/-- The state of a `FileService` instance after `__init__`: the three data fields
plus the private boto3 client.  No method of the class assigns to any of these
after construction. -/
structure FileService where
  bucket_name : PyStr
  upload_expiration : Int
  external_url : Option PyStr
  client : Boto3Client
deriving DecidableEq

/-- `FileService.__init__`: copies the settings fields, normalises a falsy
`s3_external_url` to `None`, and creates one boto3 client (identified by
`fresh`). -/
def FileService.init (s : Settings) (fresh : Nat) : FileService :=
  { bucket_name := s.s3_bucket
    upload_expiration := s.s3_upload_expiration
    external_url := if s.s3_external_url ≠ [] then some s.s3_external_url else none
    client := boto3_client s fresh }

/-- The request `FileService.get_upload_link` passes to
`generate_presigned_post`: bucket, key, optional form fields, optional
conditions list and expiration. -/
structure PresignedPostRequest where
  bucket : PyStr
  key : PyStr
  fields : Option (List (PyStr × PyStr))
  conditions : Option (List (List PyStr))
  expiresIn : Int
deriving DecidableEq

/-- The value returned by `generate_presigned_post`: a URL and form fields. -/
structure PresignedPost where
  url : PyStr
  fields : List (PyStr × PyStr)
deriving DecidableEq

/-- The dict returned by `FileService.get_upload_link`. -/
structure UploadLinkResult where
  upload_link : PyStr
  fields : List (PyStr × PyStr)
  filename : PyStr
  expires_in : Int
deriving DecidableEq

/-- The argument construction of `get_upload_link` (file_service.py lines
148-157): a truthy content type pins the `Content-Type` form field and adds a
`starts-with` condition on `$Content-Type`; `Fields` and `Conditions` are
passed as `None` when falsy. -/
def uploadRequest (svc : FileService) (filename : PyStr) (content_type : Option PyStr) :
    PresignedPostRequest :=
  let conditions : List (List PyStr) :=
    if pyTruthy content_type then
      [[pys "starts-with", pys "$Content-Type", content_type.getD []]]
    else []
  { bucket := svc.bucket_name
    key := filename
    fields :=
      if pyTruthy content_type then some [(pys "Content-Type", content_type.getD [])]
      else none
    conditions := if conditions ≠ [] then some conditions else none
    expiresIn := svc.upload_expiration }

/-- `FileService.get_upload_link`.  `backend` models the outcome of the
`generate_presigned_post` call on the given request.  The try/except folds a
`ClientError` and any other exception into `FileServiceError` with the
corresponding message. -/
def get_upload_link (svc : FileService) (filename : PyStr) (content_type : Option PyStr)
    (backend : PresignedPostRequest → Except Exc PresignedPost) :
    Except Exc UploadLinkResult :=
  let body : Except Exc UploadLinkResult :=
    match backend (uploadRequest svc filename content_type) with
    | .error e => .error e
    | .ok post =>
      .ok { upload_link := replace_url_endpoint post.url svc.external_url
            fields := post.fields
            filename := filename
            expires_in := svc.upload_expiration }
  match body with
  | .ok v => .ok v
  | .error (.clientError m) =>
    .error (.fileServiceError (pys "Failed to generate upload URL: " ++ m))
  | .error e =>
    .error (.fileServiceError (pys "Unexpected error: " ++ e.msg))

/-- The request `FileService.get_file` passes to `generate_presigned_url`
for `get_object`. -/
structure DownloadRequest where
  bucket : PyStr
  key : PyStr
  expiresIn : Int
deriving DecidableEq

/-- The dict returned by `FileService.get_file`. -/
structure DownloadLinkResult where
  download_link : PyStr
  filename : PyStr
  expires_in : Int
deriving DecidableEq

/-- The argument construction of `get_file` (file_service.py lines 198-202):
`ExpiresIn` reuses `upload_expiration`; there is no separate download
expiration anywhere in `Settings` or `FileService`. -/
def downloadRequest (svc : FileService) (filename : PyStr) : DownloadRequest :=
  { bucket := svc.bucket_name, key := filename, expiresIn := svc.upload_expiration }

/-- `FileService.get_file`, with the same error folding as `get_upload_link`. -/
def get_file (svc : FileService) (filename : PyStr)
    (backend : DownloadRequest → Except Exc PyStr) : Except Exc DownloadLinkResult :=
  let body : Except Exc DownloadLinkResult :=
    match backend (downloadRequest svc filename) with
    | .error e => .error e
    | .ok presigned =>
      .ok { download_link := replace_url_endpoint presigned svc.external_url
            filename := filename
            expires_in := svc.upload_expiration }
  match body with
  | .ok v => .ok v
  | .error (.clientError m) =>
    .error (.fileServiceError (pys "Failed to generate download URL: " ++ m))
  | .error e =>
    .error (.fileServiceError (pys "Unexpected error: " ++ e.msg))

/-- One entry of a bucket listing (the `Contents` items of a boto3
`list_objects` response, passed through opaquely). -/
structure ObjectMeta where
  key : PyStr
  size : Int
  lastModified : PyStr
deriving DecidableEq

/-- A boto3 `list_objects` response: the `Contents` entry is absent for an
empty bucket. -/
structure ListObjectsResponse where
  contents : Option (List ObjectMeta)
deriving DecidableEq

/-- `FileService.get_file_list`: calls `list_objects` on the bucket, extracts
`Contents` with default `[]`, with the same error folding (list message). -/
def get_file_list (svc : FileService)
    (backend : PyStr → Except Exc ListObjectsResponse) : Except Exc (List ObjectMeta) :=
  let body : Except Exc (List ObjectMeta) :=
    match backend svc.bucket_name with
    | .error e => .error e
    | .ok response => .ok (response.contents.getD [])
  match body with
  | .ok v => .ok v
  | .error (.clientError m) =>
    .error (.fileServiceError (pys "Failed to list files: " ++ m))
  | .error e =>
    .error (.fileServiceError (pys "Unexpected error: " ++ e.msg))

/-! ## api/importer.py: HTTP endpoints -/

/-- Outcome of an endpoint handler: a JSON body, or an `HTTPException`
carrying a status code and the `detail` field of the response body. -/
inductive HttpOutcome (α : Type) where
  | success : α → HttpOutcome α
  | httpError : Int → PyStr → HttpOutcome α
deriving DecidableEq

/-- The endpoint `GET /importer/file/upload`: a `FileServiceError` becomes a 500
with its message as `detail`; any other exception becomes a 500 with a generic
`detail`. -/
def endpoint_get_upload_link (svc : FileService) (filename : PyStr)
    (content_type : Option PyStr)
    (backend : PresignedPostRequest → Except Exc PresignedPost) :
    HttpOutcome UploadLinkResult :=
  match get_upload_link svc filename content_type backend with
  | .ok r => .success r
  | .error (.fileServiceError m) => .httpError 500 m
  | .error _ => .httpError 500 (pys "Failed to generate upload link")

/-- The endpoint `GET /importer/file`, same error translation. -/
def endpoint_get_file (svc : FileService) (filename : PyStr)
    (backend : DownloadRequest → Except Exc PyStr) : HttpOutcome DownloadLinkResult :=
  match get_file svc filename backend with
  | .ok r => .success r
  | .error (.fileServiceError m) => .httpError 500 m
  | .error _ => .httpError 500 (pys "Failed to generate download link")

/-- The endpoint `GET /importer/file/list`, same error translation. -/
def endpoint_get_file_list (svc : FileService)
    (backend : PyStr → Except Exc ListObjectsResponse) : HttpOutcome (List ObjectMeta) :=
  match get_file_list svc backend with
  | .ok r => .success r
  | .error (.fileServiceError m) => .httpError 500 m
  | .error _ => .httpError 500 (pys "Failed to generate file list")

/-- Holds exactly when a service-layer outcome is a success or a
`FileServiceError`: no other exception type crossed the wrapper boundary. -/
def onlyDomainErrors {α : Type} : Except Exc α → Prop
  | .ok _ => True
  | .error (.fileServiceError _) => True
  | .error _ => False

/-- Holds exactly when an endpoint outcome is a success or an HTTP 500 whose
body carries a `detail` field. -/
def okOr500WithDetail {α : Type} : HttpOutcome α → Prop
  | .success _ => True
  | .httpError code _ => code = 500

/-! ## Process model for dependency injection

`api.importer.get_file_service` is registered as `Depends(get_file_service)`
on each endpoint.  FastAPI evaluates a dependency function anew for every
incoming request (its cache only deduplicates within a single request), so
each request constructs a fresh `FileService` and hence a fresh boto3 client.
The `fresh` counter threads object identity through a sequence of requests. -/

/-- `api.importer.get_file_service`: returns `FileService()`, consuming one
fresh client identity. -/
def get_file_service (s : Settings) (fresh : Nat) : FileService × Nat :=
  (FileService.init s fresh, fresh + 1)

/-- Serving one request: FastAPI resolves `Depends(get_file_service)`, yielding
the service instance the handler runs with and the next process state. -/
def handle_request (s : Settings) (fresh : Nat) : FileService × Nat :=
  get_file_service s fresh

/-- The service instances used by a sequence of `n` requests in one process,
starting from a fresh-identity counter of 0 (process start). -/
def servicesUsed (s : Settings) : Nat → List FileService
  | 0 => []
  | n + 1 =>
    let before := servicesUsed s n
    (handle_request s n).1 :: before

/-! ## services/git.py -/

/-- Exceptions the git library can raise: `git.exc.GitCommandError`, or any
other exception type (for example `GitCommandNotFound`, a sibling of
`GitCommandError` in GitPython's hierarchy, raised when the git executable is
missing). -/
inductive GitExc where
  | gitCommandError : PyStr → GitExc
  | otherExc : PyStr → GitExc
deriving DecidableEq

/-- Message of a git-layer exception (Python `str(e)`). -/
def GitExc.msg : GitExc → PyStr
  | .gitCommandError m => m
  | .otherExc m => m

/-- Exceptions crossing the workflow boundary: `RepositoryCloneError` raised by
`clone_repo`, or an uncaught exception of any other type. -/
inductive WorkflowExc where
  | repositoryCloneError : PyStr → WorkflowExc
  | uncaught : PyStr → WorkflowExc
deriving DecidableEq

/-- A cloned repository object (`git.Repo`), identified abstractly. -/
structure Repo where
  repoId : Nat
deriving DecidableEq

/-- `git.PushInfo`: only the `flags` bitfield is consulted. -/
structure PushInfo where
  flags : Nat
deriving DecidableEq

/-- `git.PushInfo.ERROR` (bit 10). -/
def PushInfo.ERROR : Nat := 1024

/-- Outcomes of the external git and filesystem effects invoked by the
workflow, one entry per call site. -/
structure GitEnv where
  cloneResult : PyStr → PyStr → Except GitExc Repo
  addResult : Repo → PyStr → Except GitExc Unit
  commitResult : Repo → PyStr → Except GitExc Unit
  pushResult : Repo → Except GitExc (List PushInfo)
  rmtreeResult : PyStr → Except GitExc Unit

/-- `git.clone_repo`: only `GitCommandError` is caught and converted to
`RepositoryCloneError`; any other exception from `clone_from` propagates. -/
def clone_repo (env : GitEnv) (repo_url clone_dir : PyStr) : Except WorkflowExc Repo :=
  match env.cloneResult repo_url clone_dir with
  | .ok repo => .ok repo
  | .error (.gitCommandError _) =>
    .error (.repositoryCloneError (pys "Failed to clone repository from " ++ repo_url))
  | .error (.otherExc m) => .error (.uncaught m)

/-- `git.commit_repo`: returns a fixed failure string for a `None` repository;
otherwise stages, commits and pushes inside a try block whose
`except Exception` converts any failure into a returned message string. -/
def commit_repo (env : GitEnv) (repo : Option Repo)
    (file_to_add commit_message : PyStr) : PyStr :=
  match repo with
  | none => pys "Commit Failed: Repository not cloned."
  | some r =>
    match env.addResult r file_to_add with
    | .error e => pys "An error occurred during commit/push: " ++ e.msg
    | .ok _ =>
      match env.commitResult r commit_message with
      | .error e => pys "An error occurred during commit/push: " ++ e.msg
      | .ok _ =>
        match env.pushResult r with
        | .error e => pys "An error occurred during commit/push: " ++ e.msg
        | .ok push_info =>
          if push_info ≠ [] ∧ ((push_info.headD ⟨0⟩).flags &&& PushInfo.ERROR) ≠ 0 then
            pys "Commit Failed during push!"
          else
            pys "Commit Successful! Data Imported Successfully!"

/-- `pathlib.Path(p).name`: the final path component, ignoring trailing
slashes (POSIX flavour; no drive handling is needed for this code). -/
def pathName (p : PyStr) : PyStr :=
  ((p.reverse.dropWhile (fun c => c == '/')).takeWhile (fun c => c != '/')).reverse

/-- `git.run_workflow`: clone (catching only `RepositoryCloneError`), commit and
push via `commit_repo`, then cleanup whose failure is only logged.  The returned
value is the status string; an exception other than `RepositoryCloneError`
during cloning is not caught and propagates. -/
def run_workflow (env : GitEnv) (repo_url csv_file_path clone_dir : PyStr) :
    Except WorkflowExc PyStr :=
  match clone_repo env repo_url clone_dir with
  | .error (.repositoryCloneError _) => .ok (pys "Workflow Failed at: Repository Cloning.")
  | .error e => .error e
  | .ok local_repo =>
    let json_filename := pathName csv_file_path
    let result_message :=
      commit_repo env (some local_repo) json_filename (pys "Add " ++ json_filename)
    match env.rmtreeResult clone_dir with
    | .ok _ => .ok result_message
    | .error _ => .ok result_message

/-! ## Concrete fixtures

These reproduce the spec's end-to-end scenario: bucket `test-bucket`,
expiration 60, external URL `http://localhost:9001`, endpoint
`http://internal-host:9000`. -/

/-- A concrete validated settings value. -/
def settings0 : Settings :=
  { s3_endpoint_url := pys "http://internal-host:9000"
    s3_bucket := pys "test-bucket"
    s3_access_key := pys "ak"
    s3_secret_key := pys "sk"
    s3_external_url := pys "http://localhost:9001"
    s3_region := pys "us-east-1"
    s3_upload_expiration := 60
    s3_use_ssl := false }

/-- A concrete service instance. -/
def svc0 : FileService := FileService.init settings0 0

/-- A backend whose presigned-post call fails with a `ClientError`. -/
def failPostBackend : PresignedPostRequest → Except Exc PresignedPost :=
  fun _ => .error (.clientError (pys "boom"))

/-- A backend whose presigned-URL call fails with an unexpected exception. -/
def failDownBackend : DownloadRequest → Except Exc PyStr :=
  fun _ => .error (.otherError (pys "dl"))

/-- A backend whose list call fails with an unexpected exception. -/
def failListBackend : PyStr → Except Exc ListObjectsResponse :=
  fun _ => .error (.otherError (pys "ls"))

/-- A backend whose presigned-post call succeeds. -/
def okPostBackend : PresignedPostRequest → Except Exc PresignedPost :=
  fun _ => .ok ⟨pys "http://internal-host:9000/test-bucket", []⟩

/-- A backend whose presigned-URL call succeeds. -/
def okDownBackend : DownloadRequest → Except Exc PyStr :=
  fun _ => .ok (pys "http://internal-host:9000/test-bucket/f?X-Amz-Expires=60")

/-- A backend whose list call reports a bucket without a `Contents` entry. -/
def emptyListBackend : PyStr → Except Exc ListObjectsResponse :=
  fun _ => .ok ⟨none⟩

/-- The upload result produced by `okPostBackend` through `svc0`. -/
def uploadResult0 : UploadLinkResult :=
  ⟨pys "http://localhost:9001/test-bucket", [], pys "f", 60⟩

/-- The download result produced by `okDownBackend` through `svc0`. -/
def downloadResult0 : DownloadLinkResult :=
  ⟨pys "http://localhost:9001/test-bucket/f?X-Amz-Expires=60", pys "f", 60⟩

/-- A git environment whose clone step raises an exception that is not a
`GitCommandError` (for example `GitCommandNotFound`: the git executable is
missing). -/
def envCloneCrash : GitEnv :=
  { cloneResult := fun _ _ => .error (.otherExc (pys "git executable not found"))
    addResult := fun _ _ => .ok ()
    commitResult := fun _ _ => .ok ()
    pushResult := fun _ => .ok []
    rmtreeResult := fun _ => .ok () }

/-- A git environment in which every step succeeds. -/
def envAllOk : GitEnv :=
  { cloneResult := fun _ _ => .ok ⟨0⟩
    addResult := fun _ _ => .ok ()
    commitResult := fun _ _ => .ok ()
    pushResult := fun _ => .ok [⟨0⟩]
    rmtreeResult := fun _ => .ok () }

/-! ## Helper lemmas -/

/-- The message with which the service wraps a backend exception, given the
operation's `ClientError` message head. -/
def wrapMsg (head : PyStr) : Exc → PyStr
  | .clientError m => head ++ m
  | e => pys "Unexpected error: " ++ e.msg

lemma get_upload_link_onlyDomain (svc : FileService) (filename : PyStr)
    (ct : Option PyStr) (b : PresignedPostRequest → Except Exc PresignedPost) :
    onlyDomainErrors (get_upload_link svc filename ct b) := by
  cases hb : b (uploadRequest svc filename ct) with
  | ok v => simp [get_upload_link, hb, onlyDomainErrors]
  | error e => cases e <;> simp [get_upload_link, hb, onlyDomainErrors]

lemma get_file_onlyDomain (svc : FileService) (filename : PyStr)
    (b : DownloadRequest → Except Exc PyStr) :
    onlyDomainErrors (get_file svc filename b) := by
  cases hb : b (downloadRequest svc filename) with
  | ok v => simp [get_file, hb, onlyDomainErrors]
  | error e => cases e <;> simp [get_file, hb, onlyDomainErrors]

lemma get_file_list_onlyDomain (svc : FileService)
    (b : PyStr → Except Exc ListObjectsResponse) :
    onlyDomainErrors (get_file_list svc b) := by
  cases hb : b svc.bucket_name with
  | ok v => simp [get_file_list, hb, onlyDomainErrors]
  | error e => cases e <;> simp [get_file_list, hb, onlyDomainErrors]

lemma endpoint_upload_okOr500 (svc : FileService) (filename : PyStr)
    (ct : Option PyStr) (b : PresignedPostRequest → Except Exc PresignedPost) :
    okOr500WithDetail (endpoint_get_upload_link svc filename ct b) := by
  unfold endpoint_get_upload_link
  cases h : get_upload_link svc filename ct b with
  | ok v => simp [okOr500WithDetail]
  | error e => cases e <;> simp [okOr500WithDetail]

lemma endpoint_file_okOr500 (svc : FileService) (filename : PyStr)
    (b : DownloadRequest → Except Exc PyStr) :
    okOr500WithDetail (endpoint_get_file svc filename b) := by
  unfold endpoint_get_file
  cases h : get_file svc filename b with
  | ok v => simp [okOr500WithDetail]
  | error e => cases e <;> simp [okOr500WithDetail]

lemma endpoint_list_okOr500 (svc : FileService)
    (b : PyStr → Except Exc ListObjectsResponse) :
    okOr500WithDetail (endpoint_get_file_list svc b) := by
  unfold endpoint_get_file_list
  cases h : get_file_list svc b with
  | ok v => simp [okOr500WithDetail]
  | error e => cases e <;> simp [okOr500WithDetail]

lemma urlunsplit_with_netloc (c : SplitResult) (hn : c.netloc ≠ [])
    (hp : c.path = [] ∨ c.path.take 1 = ['/']) :
    urlunsplit c =
      (if c.scheme ≠ [] then c.scheme ++ [':'] else []) ++
      ['/', '/'] ++ c.netloc ++ c.path ++
      (if c.query ≠ [] then '?' :: c.query else []) ++
      (if c.fragment ≠ [] then '#' :: c.fragment else []) := by
  have h2 : ¬ (c.path ≠ [] ∧ c.path.take 1 ≠ ['/']) := by
    rcases hp with h | h
    · exact fun hc => hc.1 h
    · exact fun hc => hc.2 h
  by_cases hs : c.scheme = [] <;> by_cases hq : c.query = [] <;>
    by_cases hf : c.fragment = [] <;>
      simp [urlunsplit, hn, h2, hs, hq, hf, List.append_assoc]

lemma urlunparse_with_netloc (p : ParseResult) (hn : p.netloc ≠ [])
    (hp : (p.path = [] ∧ p.params = []) ∨ p.path.take 1 = ['/']) :
    urlunparse p =
      (if p.scheme ≠ [] then p.scheme ++ [':'] else []) ++
      ['/', '/'] ++ p.netloc ++ p.path ++
      (if p.params ≠ [] then ';' :: p.params else []) ++
      (if p.query ≠ [] then '?' :: p.query else []) ++
      (if p.fragment ≠ [] then '#' :: p.fragment else []) := by
  have hcomb :
      (if p.params ≠ [] then p.path ++ ';' :: p.params else p.path) = [] ∨
      (if p.params ≠ [] then p.path ++ ';' :: p.params else p.path).take 1 = ['/'] := by
    rcases hp with ⟨h1, h2⟩ | h
    · left; simp [h1, h2]
    · right
      have hne : p.path ≠ [] := by
        intro hval; rw [hval] at h; simp at h
      obtain ⟨c, t, hct⟩ := List.exists_cons_of_ne_nil hne
      rw [hct] at h
      simp at h
      by_cases hpar : p.params = [] <;> simp [hpar, hct, h]
  have base :=
    urlunsplit_with_netloc
      ⟨p.scheme, p.netloc, if p.params ≠ [] then p.path ++ ';' :: p.params else p.path,
        p.query, p.fragment⟩ hn hcomb
  unfold urlunparse
  rw [base]
  by_cases hpar : p.params = [] <;> simp [hpar, List.append_assoc]

/-! ## Claim theorems -/

/-- Claim C1: a backend `ClientError` or any other unexpected exception in any
of the three storage operations surfaces as exactly one domain error type,
`FileServiceError`, wrapping the underlying error message; the HTTP endpoints
translate it (and any unexpected exception) into a 500 response whose body
carries a `detail` field; no other error type escapes the wrapper boundary. -/
theorem storage_errors_uniformly_wrapped
    (svc : FileService) (filename : PyStr) (ct : Option PyStr)
    (bU : PresignedPostRequest → Except Exc PresignedPost)
    (bD : DownloadRequest → Except Exc PyStr)
    (bL : PyStr → Except Exc ListObjectsResponse)
    (eU eD eL : Exc)
    (hU : bU (uploadRequest svc filename ct) = .error eU)
    (hD : bD (downloadRequest svc filename) = .error eD)
    (hL : bL svc.bucket_name = .error eL) :
    get_upload_link svc filename ct bU =
      .error (.fileServiceError (wrapMsg (pys "Failed to generate upload URL: ") eU)) ∧
    get_file svc filename bD =
      .error (.fileServiceError (wrapMsg (pys "Failed to generate download URL: ") eD)) ∧
    get_file_list svc bL =
      .error (.fileServiceError (wrapMsg (pys "Failed to list files: ") eL)) ∧
    endpoint_get_upload_link svc filename ct bU =
      .httpError 500 (wrapMsg (pys "Failed to generate upload URL: ") eU) ∧
    endpoint_get_file svc filename bD =
      .httpError 500 (wrapMsg (pys "Failed to generate download URL: ") eD) ∧
    endpoint_get_file_list svc bL =
      .httpError 500 (wrapMsg (pys "Failed to list files: ") eL) ∧
    (∀ b, onlyDomainErrors (get_upload_link svc filename ct b)) ∧
    (∀ b, onlyDomainErrors (get_file svc filename b)) ∧
    (∀ b, onlyDomainErrors (get_file_list svc b)) ∧
    (∀ b, okOr500WithDetail (endpoint_get_upload_link svc filename ct b)) ∧
    (∀ b, okOr500WithDetail (endpoint_get_file svc filename b)) ∧
    (∀ b, okOr500WithDetail (endpoint_get_file_list svc b)) := by
  have u1 : get_upload_link svc filename ct bU =
      .error (.fileServiceError (wrapMsg (pys "Failed to generate upload URL: ") eU)) := by
    cases eU <;> simp [get_upload_link, hU, wrapMsg, Exc.msg]
  have d1 : get_file svc filename bD =
      .error (.fileServiceError (wrapMsg (pys "Failed to generate download URL: ") eD)) := by
    cases eD <;> simp [get_file, hD, wrapMsg, Exc.msg]
  have l1 : get_file_list svc bL =
      .error (.fileServiceError (wrapMsg (pys "Failed to list files: ") eL)) := by
    cases eL <;> simp [get_file_list, hL, wrapMsg, Exc.msg]
  refine ⟨u1, d1, l1, ?_, ?_, ?_,
    get_upload_link_onlyDomain svc filename ct,
    get_file_onlyDomain svc filename,
    get_file_list_onlyDomain svc,
    endpoint_upload_okOr500 svc filename ct,
    endpoint_file_okOr500 svc filename,
    endpoint_list_okOr500 svc⟩
  · simp [endpoint_get_upload_link, u1]
  · simp [endpoint_get_file, d1]
  · simp [endpoint_get_file_list, l1]

/-- Witness for C1 at concrete inputs: a `ClientError` from the presigned-post
call, an unexpected exception from the other two calls. -/
theorem storage_errors_uniformly_wrapped_witness :
    get_upload_link svc0 (pys "f") none failPostBackend =
      .error (.fileServiceError (pys "Failed to generate upload URL: boom")) ∧
    endpoint_get_file svc0 (pys "f") failDownBackend =
      .httpError 500 (pys "Unexpected error: dl") ∧
    endpoint_get_file_list svc0 failListBackend =
      .httpError 500 (pys "Unexpected error: ls") := by
  have h := storage_errors_uniformly_wrapped svc0 (pys "f") none
    failPostBackend failDownBackend failListBackend
    (.clientError (pys "boom")) (.otherError (pys "dl")) (.otherError (pys "ls"))
    rfl rfl rfl
  refine ⟨h.1.trans (by decide), ?_, ?_⟩
  · exact h.2.2.2.2.1.trans (by decide)
  · exact h.2.2.2.2.2.1.trans (by decide)

/-- Counterexample to C2 as stated: the empty string is a supplied content
type (`content_type=""` is a value, not an omission), yet because Python
tests truthiness rather than presence, the request pins no `Content-Type`
field and attaches no condition. -/
theorem content_type_empty_not_pinned :
    (uploadRequest svc0 (pys "report.csv") (some [])).fields = none ∧
    (uploadRequest svc0 (pys "report.csv") (some [])).conditions = none ∧
    (uploadRequest svc0 (pys "report.csv") (some [])).fields ≠
      some [(pys "Content-Type", [])] := by
  decide

/-- Claim C2 (amended): if a nonempty content type is supplied, the request
built for the backend pins the `Content-Type` form field to that exact value
and attaches a `starts-with` condition on `$Content-Type` with that value; if
the content type is omitted or empty (falsy), neither is attached and both
arguments are passed as absent. -/
theorem content_type_pinning
    (svc : FileService) (filename : PyStr) (ct : Option PyStr) (s : PyStr)
    (hs : ct = some s) (hne : s ≠ []) :
    (uploadRequest svc filename ct).fields = some [(pys "Content-Type", s)] ∧
    (uploadRequest svc filename ct).conditions =
      some [[pys "starts-with", pys "$Content-Type", s]] ∧
    (uploadRequest svc filename none).fields = none ∧
    (uploadRequest svc filename none).conditions = none ∧
    (uploadRequest svc filename (some [])).fields = none ∧
    (uploadRequest svc filename (some [])).conditions = none := by
  subst hs
  cases s with
  | nil => exact absurd rfl hne
  | cons c t => simp [uploadRequest, pyTruthy]

/-- Witness for C2 (amended) at the spec's end-to-end scenario:
content type `text/csv` for `report.csv`. -/
theorem content_type_pinning_witness :
    (uploadRequest svc0 (pys "report.csv") (some (pys "text/csv"))).fields =
      some [(pys "Content-Type", pys "text/csv")] ∧
    (uploadRequest svc0 (pys "report.csv") (some (pys "text/csv"))).conditions =
      some [[pys "starts-with", pys "$Content-Type", pys "text/csv"]] := by
  have h := content_type_pinning svc0 (pys "report.csv")
    (some (pys "text/csv")) (pys "text/csv") rfl (by decide)
  exact ⟨h.1, h.2.1⟩

/-- Counterexample to C3 as stated: for a relative input URL the rewrite
prepends a slash, so the path is not preserved character for character
(`foo` becomes `/foo`); and for an unparsable input URL the function returns
it unchanged, so the result's scheme and host are not those of the
override. -/
theorem replace_changes_relative_path :
    replace_url_endpoint (pys "foo?q=1") (some (pys "http://h:9001")) =
      pys "http://h:9001/foo?q=1" ∧
    (urlparse (pys "foo?q=1")).map ParseResult.path = .ok (pys "foo") ∧
    (urlparse (pys "http://h:9001/foo?q=1")).map ParseResult.path = .ok (pys "/foo") ∧
    replace_url_endpoint (pys "http://[x/p?q=1") (some (pys "http://h:9001")) =
      pys "http://[x/p?q=1" := by
  decide

/-- Claim C3 (amended): for every input URL and nonempty override that both
parse successfully, where the override has a nonempty netloc and the input's
parsed path is absolute (or empty with no params), the result is exactly the
override's scheme and netloc followed by the input's path, params, query and
fragment serialized unchanged; when parsing fails the input is returned
unchanged (see the counterexample and C7). -/
theorem replace_preserves_path_and_query (url ext : PyStr) (p q : ParseResult)
    (hp : urlparse url = .ok p) (hq : urlparse ext = .ok q)
    (hn : q.netloc ≠ [])
    (hpath : (p.path = [] ∧ p.params = []) ∨ p.path.take 1 = ['/']) :
    replace_url_endpoint url (some ext) =
      (if q.scheme ≠ [] then q.scheme ++ [':'] else []) ++
      ['/', '/'] ++ q.netloc ++ p.path ++
      (if p.params ≠ [] then ';' :: p.params else []) ++
      (if p.query ≠ [] then '?' :: p.query else []) ++
      (if p.fragment ≠ [] then '#' :: p.fragment else []) := by
  have hext : ext ≠ [] := by
    intro hval
    subst hval
    have : q = ⟨[], [], [], [], [], []⟩ := by
      have hvq : urlparse ([] : PyStr) = .ok ⟨[], [], [], [], [], []⟩ := by decide
      rw [hvq] at hq
      exact (Except.ok.injEq _ _ ▸ hq).symm ▸ rfl
    rw [this] at hn
    exact hn rfl
  have htr : pyTruthy (some ext) = true := by
    cases ext with
    | nil => exact absurd rfl hext
    | cons c t => rfl
  have := urlunparse_with_netloc ⟨q.scheme, q.netloc, p.path, p.params, p.query, p.fragment⟩ hn hpath
  simp only [replace_url_endpoint, htr, Bool.true_eq_false, if_false, Option.getD_some, hp, hq]
  exact this

/-- Witness for C3 (amended): rewriting a presigned download URL from the
internal endpoint to `http://localhost:9001` preserves its path and query. -/
theorem replace_preserves_path_and_query_witness :
    replace_url_endpoint (pys "http://internal-host:9000/b/k?X-Amz-Expires=60")
      (some (pys "http://localhost:9001")) =
      pys "http://localhost:9001/b/k?X-Amz-Expires=60" := by
  have h := replace_preserves_path_and_query
    (pys "http://internal-host:9000/b/k?X-Amz-Expires=60")
    (pys "http://localhost:9001")
    ⟨pys "http", pys "internal-host:9000", pys "/b/k", [], pys "X-Amz-Expires=60", []⟩
    ⟨pys "http", pys "localhost:9001", [], [], [], []⟩
    (by decide) (by decide) (by decide) (by decide)
  exact h.trans (by decide)

/-- Claim C4: the `expires_in` of an issued upload grant equals the configured
upload expiration, and the download operation uses that same setting both as
the backend `ExpiresIn` argument and as its returned `expires_in`; the
`Settings` and `FileService` structures hold no separate download-expiration
field. -/
theorem expiration_uniform (st : Settings) (svc : FileService)
    (filename : PyStr) (ct : Option PyStr)
    (bU : PresignedPostRequest → Except Exc PresignedPost)
    (bD : DownloadRequest → Except Exc PyStr)
    (ru : UploadLinkResult) (rd : DownloadLinkResult)
    (hU : get_upload_link svc filename ct bU = .ok ru)
    (hD : get_file svc filename bD = .ok rd) :
    ru.expires_in = svc.upload_expiration ∧
    rd.expires_in = svc.upload_expiration ∧
    (uploadRequest svc filename ct).expiresIn = svc.upload_expiration ∧
    (downloadRequest svc filename).expiresIn = svc.upload_expiration ∧
    (FileService.init st 0).upload_expiration = st.s3_upload_expiration := by
  refine ⟨?_, ?_, rfl, rfl, rfl⟩
  · cases hb : bU (uploadRequest svc filename ct) with
    | ok post =>
      simp [get_upload_link, hb] at hU
      rw [← hU]
    | error e => cases e <;> simp [get_upload_link, hb] at hU
  · cases hb : bD (downloadRequest svc filename) with
    | ok presigned =>
      simp [get_file, hb] at hD
      rw [← hD]
    | error e => cases e <;> simp [get_file, hb] at hD

/-- Witness for C4 at the concrete scenario (expiration 60). -/
theorem expiration_uniform_witness :
    uploadResult0.expires_in = svc0.upload_expiration ∧
    downloadResult0.expires_in = svc0.upload_expiration := by
  have h := expiration_uniform settings0 svc0 (pys "f") none
    okPostBackend okDownBackend uploadResult0 downloadResult0 (by decide) (by decide)
  exact ⟨h.1, h.2.1⟩

/-- Claim C5: rewriting with no override is the identity — `None` and the
empty-string override both return the input unchanged — and `FileService`
normalises an empty external-URL setting to `None`. -/
theorem no_override_identity (url : PyStr) (st : Settings) (n : Nat) :
    replace_url_endpoint url none = url ∧
    replace_url_endpoint url (some []) = url ∧
    ((FileService.init st n).external_url = none ↔ st.s3_external_url = []) := by
  refine ⟨rfl, rfl, ?_⟩
  by_cases h : st.s3_external_url = [] <;> simp [FileService.init, h]

/-- Claim C6: listing a bucket for which the backend response lacks a
`Contents` entry yields the empty list, not an error, and the endpoint
returns it as a success. -/
theorem empty_bucket_lists_empty (svc : FileService)
    (b : PyStr → Except Exc ListObjectsResponse)
    (h : b svc.bucket_name = .ok ⟨none⟩) :
    get_file_list svc b = .ok [] ∧
    endpoint_get_file_list svc b = .success [] := by
  constructor
  · simp [get_file_list, h]
  · simp [endpoint_get_file_list, get_file_list, h]

/-- Witness for C6 at concrete inputs. -/
theorem empty_bucket_lists_empty_witness :
    get_file_list svc0 emptyListBackend = .ok [] ∧
    endpoint_get_file_list svc0 emptyListBackend = .success [] :=
  empty_bucket_lists_empty svc0 emptyListBackend rfl

/-- Claim C7: `replace_url_endpoint` never raises — it is total by
construction, mirroring the catch-all try/except — and whenever parsing of
either the URL or the override fails, it returns the original input URL
unchanged rather than propagating the failure. -/
theorem replace_total_on_parse_failure (url ext : PyStr)
    (h : (∃ e, urlparse url = .error e) ∨ (∃ e, urlparse ext = .error e)) :
    replace_url_endpoint url (some ext) = url := by
  unfold replace_url_endpoint
  by_cases ht : pyTruthy (some ext) = false
  · simp [ht]
  · simp only [ht, if_false, Option.getD_some]
    rcases h with ⟨e, he⟩ | ⟨e, he⟩
    · rw [he]
      cases urlparse ext <;> rfl
    · rw [he]
      cases urlparse url <;> rfl

/-- Witness for C7: a URL with an unbalanced bracket makes `urlparse` raise,
and the rewrite returns the input unchanged. -/
theorem replace_total_on_parse_failure_witness :
    replace_url_endpoint (pys "http://[x/p") (some (pys "http://h")) =
      pys "http://[x/p" :=
  replace_total_on_parse_failure (pys "http://[x/p") (pys "http://h")
    (Or.inl ⟨pys "Invalid IPv6 URL", by decide⟩)

/-- Counterexample to C8 as stated: a clone failure raised as any exception
other than `GitCommandError` (for example `GitCommandNotFound` when the git
executable is missing) is caught neither by `clone_repo` (which catches only
`GitCommandError`) nor by `run_workflow` (which catches only
`RepositoryCloneError`), so `run_workflow` propagates it instead of
returning a status string. -/
theorem run_workflow_propagates_unexpected_clone_error :
    run_workflow envCloneCrash (pys "https://x/r.git") (pys "data.csv") (pys "temp") =
      .error (.uncaught (pys "git executable not found")) := by
  decide

/-- Claim C8 (amended): whenever the clone step does not raise an exception of
a type other than `GitCommandError`, `run_workflow` returns a descriptive
status string for every failure mode — clone failure surfaced as
`GitCommandError`, commit/push failure, exception during commit, cleanup
failure — rather than propagating an exception. -/
theorem run_workflow_returns_status (env : GitEnv) (repo_url csv clone_dir : PyStr)
    (h : ∀ m, env.cloneResult repo_url clone_dir ≠ .error (.otherExc m)) :
    ∃ s, run_workflow env repo_url csv clone_dir = .ok s := by
  cases hc : env.cloneResult repo_url clone_dir with
  | error e =>
    cases e with
    | gitCommandError m =>
      exact ⟨pys "Workflow Failed at: Repository Cloning.",
        by simp [run_workflow, clone_repo, hc]⟩
    | otherExc m => exact absurd hc (h m)
  | ok r =>
    refine ⟨commit_repo env (some r) (pathName csv) (pys "Add " ++ pathName csv), ?_⟩
    cases hr : env.rmtreeResult clone_dir with
    | ok u => simp [run_workflow, clone_repo, hc, hr]
    | error e2 => simp [run_workflow, clone_repo, hc, hr]

/-- Witness for C8 (amended) with an all-success environment. -/
theorem run_workflow_returns_status_witness :
    ∃ s, run_workflow envAllOk (pys "https://x/r.git") (pys "data.csv") (pys "temp") =
      .ok s := by
  refine run_workflow_returns_status envAllOk (pys "https://x/r.git")
    (pys "data.csv") (pys "temp") ?_
  intro m hcontra
  simp [envAllOk] at hcontra

/-- Claim C9 evaluated on the code (code bug): because
`Depends(get_file_service)` re-evaluates the dependency for every request,
two consecutive requests in one process are served by two distinct
`FileService` instances holding two distinct boto3 clients — the code
contradicts the documented single-client-per-process design (the
immutability of the fields after construction does hold: no method assigns
to them). -/
theorem per_request_new_client (s : Settings) :
    servicesUsed s 2 = [FileService.init s 1, FileService.init s 0] ∧
    (FileService.init s 1).client ≠ (FileService.init s 0).client ∧
    (FileService.init s 1).client.clientId ≠ (FileService.init s 0).client.clientId := by
  refine ⟨rfl, ?_, ?_⟩
  · simp [FileService.init, boto3_client]
  · simp [FileService.init, boto3_client]

/-- Claim C10: `commit_repo` called with a `None` repository returns the fixed
failure string and consults no git operation at all — the result is the same
for every environment of git-call outcomes. -/
theorem commit_none_fixed_string (env env2 : GitEnv) (file msg : PyStr) :
    commit_repo env none file msg = pys "Commit Failed: Repository not cloned." ∧
    commit_repo env none file msg = commit_repo env2 none file msg :=
  ⟨rfl, rfl⟩

end Octowalrus
